import Mathlib

/-!
Shallow embedding of `src/main.py` (IoT sensor simulator with MQTT and
blockchain delivery, offline JSON buffering and resynchronization).

The offline buffer file is modelled by `BufFile`: absent, present with empty
content, present with unparsable (non-JSON) content, or present with a valid
JSON array of readings.  A file whose content is whitespace only behaves, in
every operation of the program, exactly like an unparsable one (the read in
`save_data_offline` strips it to the empty-list default, and `resync_offline_data`
feeds it to the JSON parser, which raises and is caught), so it is folded into
the `invalid` constructor.

Channel outcomes (MQTT publish result, Ganache connectivity, transaction
success) are modelled as oracles in `Channels`; the mutable fields of the
`SensorSimulator` object that the claims touch (`self.w3` being set,
`self.offline_mode`, the buffer file) form `Simulator`.  Readings are an
arbitrary type `α`, since the delivery code treats them opaquely.
-/

namespace Beia

/-- State of the offline buffer file on disk. -/
inductive BufFile (α : Type) where
  | absent : BufFile α
  | empty : BufFile α
  | invalid : BufFile α
  | arr : List α → BufFile α
  deriving DecidableEq, Repr

/-- The read-with-fallback performed by `save_data_offline` (lines 165-183):
an absent, empty, or unparsable file is treated as the empty list; a valid
JSON array yields its elements.  This is the spec contract's `drain`. -/
def readBuffer {α : Type} : BufFile α → List α
  | .absent => []
  | .empty => []
  | .invalid => []
  | .arr l => l

/-- `save_data_offline` (lines 157-195): read the current contents with the
empty-list fallback, append the new reading, and write the whole list back
as a JSON array. -/
def save_data_offline {α : Type} (f : BufFile α) (d : α) : BufFile α :=
  .arr (readBuffer f ++ [d])

/-- Outcomes of the external channels: whether an MQTT publish of a given
reading succeeds (`result.rc == MQTT_ERR_SUCCESS` and no exception), whether
`self.w3.is_connected()` holds, and whether `send_transaction` on a given
reading succeeds. -/
structure Channels (α : Type) where
  publishOk : α → Bool
  w3Connected : Bool
  txOk : α → Bool

/-- The mutable state of the `SensorSimulator` object relevant to delivery:
whether `self.w3` is set (a ganache URL was configured), the
`self.offline_mode` flag, and the offline buffer file. -/
structure Simulator (α : Type) where
  hasW3 : Bool
  offline_mode : Bool
  file : BufFile α
  deriving DecidableEq, Repr

/-- `send_data` (lines 113-132): publish to MQTT; on success return `True`,
on failure (bad return code or exception) save offline when
`allow_offline_save` and return `False`. -/
def send_data {α : Type} (ch : Channels α) (s : Simulator α) (d : α)
    (allow_offline_save : Bool) : Bool × Simulator α :=
  if ch.publishOk d then
    (true, s)
  else
    (false, if allow_offline_save then { s with file := save_data_offline s.file d } else s)

/-- The condition under which `send_to_blockchain` reaches and completes its
transaction: `self.w3` is set, connected, and the transaction is accepted. -/
def ledgerOkB {α : Type} (ch : Channels α) (s : Simulator α) (d : α) : Bool :=
  (s.hasW3 && ch.w3Connected) && ch.txOk d

/-- `send_to_blockchain` (lines 134-155): if `self.w3` is `None` or not
connected, log, save offline when allowed, and return `False`; otherwise
attempt the transaction, saving offline when allowed on exception. -/
def send_to_blockchain {α : Type} (ch : Channels α) (s : Simulator α) (d : α)
    (allow_offline_save : Bool) : Bool × Simulator α :=
  if !(s.hasW3 && ch.w3Connected) then
    (false, if allow_offline_save then { s with file := save_data_offline s.file d } else s)
  else if ch.txOk d then
    (true, s)
  else
    (false, if allow_offline_save then { s with file := save_data_offline s.file d } else s)

/-- The per-reading loop of `resync_offline_data` (lines 214-219): for each
buffered reading, in order, attempt MQTT and blockchain delivery with
`allow_offline_save=False`, and retain the reading when either failed. -/
def resyncLoop {α : Type} (ch : Channels α) :
    Simulator α → List α → List α → Simulator α × List α
  | s, [], acc => (s, acc)
  | s, d :: rest, acc =>
    let r1 := send_data ch s d false
    let r2 := send_to_blockchain ch r1.2 d false
    resyncLoop ch r2.2 rest (if !r1.1 || !r2.1 then acc ++ [d] else acc)

/-- `resync_offline_data` (lines 197-232): return immediately if the file is
absent, has empty content, or fails to parse (the `JSONDecodeError` handler)
or parses to the empty list; otherwise re-attempt delivery of every buffered
reading and rewrite the file with the failures, deleting it when none remain. -/
def resync_offline_data {α : Type} (ch : Channels α) (s : Simulator α) : Simulator α :=
  match s.file with
  | .absent => s
  | .empty => s
  | .invalid => s
  | .arr l =>
    if l.isEmpty then s
    else
      let r := resyncLoop ch s l []
      if r.2.isEmpty then { r.1 with file := .absent }
      else { r.1 with file := .arr r.2 }

/-- One iteration of the `while True` loop of `run_simulation`
(lines 254-276): in offline mode save the reading directly; otherwise attempt
both channels (with buffering allowed) and switch to offline mode when both
fail. -/
def simulationTick {α : Type} (ch : Channels α) (s : Simulator α) (d : α) : Simulator α :=
  if s.offline_mode then
    { s with file := save_data_offline s.file d }
  else
    let r1 := send_data ch s d true
    let r2 := send_to_blockchain ch r1.2 d true
    if !r1.1 && !r2.1 then { r2.2 with offline_mode := true } else r2.2

/-- The simulation loop body iterated over a list of per-tick channel
outcomes and generated readings. -/
def runTicks {α : Type} : List (Channels α × α) → Simulator α → Simulator α
  | [], s => s
  | t :: rest, s => runTicks rest (simulationTick t.1 s t.2)

/-- `run_simulation` (lines 234-284): set `offline_mode` from the initial
MQTT connection check, run `resync_offline_data` once when connected, then
iterate ticks. -/
def run_simulation {α : Type} (connectOk : Bool) (ch0 : Channels α)
    (ticks : List (Channels α × α)) (s0 : Simulator α) : Simulator α :=
  let s1 := { s0 with offline_mode := !connectOk }
  let s2 := if connectOk then resync_offline_data ch0 s1 else s1
  runTicks ticks s2

/-- Rounding to two decimal places, over ℚ: `round(x, 2)`. -/
def round2 (x : ℚ) : ℚ := (round (x * 100) : ℚ) / 100

/-- `generate_temperature` (lines 67-72): `round(22.5 + variation, 2)` where
`variation` is the draw from `random.uniform(-5, 8)`. -/
def generate_temperature (variation : ℚ) : ℚ := round2 (22.5 + variation)

/-- `generate_humidity` (lines 74-78): `round(max(20, min(90, h)), 2)` where
`h` is the draw from `random.normalvariate(50, 15)`. -/
def generate_humidity (draw : ℚ) : ℚ := round2 (max 20 (min 90 draw))

/-- The buffer-file invariant of the spec: the file is either absent or
holds valid JSON array syntax. -/
def isJsonArrayOrAbsent {α : Type} : BufFile α → Bool
  | .absent => true
  | .arr _ => true
  | _ => false

/-- The combined per-reading success criterion of the resync loop: both the
MQTT attempt and the ledger attempt succeed. -/
def bothOk {α : Type} (ch : Channels α) (s : Simulator α) (d : α) : Bool :=
  ch.publishOk d && ledgerOkB ch s d

theorem send_data_fst {α : Type} (ch : Channels α) (s : Simulator α) (d : α) (b : Bool) :
    (send_data ch s d b).1 = ch.publishOk d := by
  by_cases h : ch.publishOk d <;> simp [send_data, h]

theorem send_data_snd_false {α : Type} (ch : Channels α) (s : Simulator α) (d : α) :
    (send_data ch s d false).2 = s := by
  by_cases h : ch.publishOk d <;> simp [send_data, h]

theorem send_data_hasW3 {α : Type} (ch : Channels α) (s : Simulator α) (d : α) (b : Bool) :
    (send_data ch s d b).2.hasW3 = s.hasW3 := by
  by_cases h : ch.publishOk d <;> cases b <;> simp [send_data, h]

theorem send_to_blockchain_fst {α : Type} (ch : Channels α) (s : Simulator α) (d : α)
    (b : Bool) : (send_to_blockchain ch s d b).1 = ledgerOkB ch s d := by
  cases hw : s.hasW3 && ch.w3Connected <;> cases ht : ch.txOk d <;>
    simp [send_to_blockchain, ledgerOkB, hw, ht]

theorem send_to_blockchain_snd_false {α : Type} (ch : Channels α) (s : Simulator α) (d : α) :
    (send_to_blockchain ch s d false).2 = s := by
  cases hw : s.hasW3 && ch.w3Connected <;> cases ht : ch.txOk d <;>
    simp [send_to_blockchain, hw, ht]

theorem resyncLoop_spec {α : Type} (ch : Channels α) (s : Simulator α) (l acc : List α) :
    resyncLoop ch s l acc = (s, acc ++ l.filter (fun d => !(bothOk ch s d))) := by
  induction l generalizing acc with
  | nil => simp [resyncLoop]
  | cons d rest ih =>
    simp only [resyncLoop, send_data_snd_false, send_to_blockchain_snd_false,
      send_data_fst, send_to_blockchain_fst, ih, List.filter_cons]
    cases hp : ch.publishOk d <;> cases hl : ledgerOkB ch s d <;>
      simp [bothOk, hp, hl]

theorem resync_arr_char {α : Type} (ch : Channels α) (s : Simulator α) (l : List α)
    (hf : s.file = .arr l) (hne : l ≠ []) :
    resync_offline_data ch s =
      { s with file :=
          if (l.filter (fun d => !(bothOk ch s d))).isEmpty then BufFile.absent
          else BufFile.arr (l.filter (fun d => !(bothOk ch s d))) } := by
  have hl : l.isEmpty = false := by simp [List.isEmpty_iff, hne]
  unfold resync_offline_data
  rw [hf]
  simp only [hl, Bool.false_eq_true, if_false, resyncLoop_spec, List.nil_append]
  split <;> rfl

theorem resync_trivial_file {α : Type} (ch : Channels α) (s : Simulator α)
    (h : s.file = BufFile.absent ∨ s.file = BufFile.empty ∨ s.file = BufFile.invalid ∨
      s.file = BufFile.arr []) :
    resync_offline_data ch s = s := by
  unfold resync_offline_data
  rcases h with h | h | h | h <;> (rw [h]; try simp)

theorem resync_offline_mode_eq {α : Type} (ch : Channels α) (s : Simulator α) :
    (resync_offline_data ch s).offline_mode = s.offline_mode := by
  rcases hf : s.file with _ | _ | _ | l
  · rw [resync_trivial_file ch s (Or.inl hf)]
  · rw [resync_trivial_file ch s (Or.inr (Or.inl hf))]
  · rw [resync_trivial_file ch s (Or.inr (Or.inr (Or.inl hf)))]
  · by_cases hne : l = []
    · rw [resync_trivial_file ch s (Or.inr (Or.inr (Or.inr (hne ▸ hf))))]
    · rw [resync_arr_char ch s l hf hne]

/-- C1: on a non-empty buffer, `resync_offline_data` removes a buffered
reading exactly when both the MQTT attempt and the ledger attempt succeed;
the buffer is replaced with precisely the subsequence of readings for which
at least one attempt failed, in original order, and the file is deleted
(becomes absent) when that subsequence is empty. -/
theorem resync_partitions_buffer {α : Type} (ch : Channels α) (s : Simulator α) (l : List α)
    (hf : s.file = BufFile.arr l) (hne : l ≠ []) :
    (resync_offline_data ch s).file =
      (if (l.filter (fun d => !(ch.publishOk d && ledgerOkB ch s d))).isEmpty then
        BufFile.absent
      else BufFile.arr (l.filter (fun d => !(ch.publishOk d && ledgerOkB ch s d)))) := by
  rw [resync_arr_char ch s l hf hne]
  rfl

theorem resync_partitions_buffer_witness :
    ((⟨true, false, BufFile.arr [1, 2]⟩ : Simulator Nat).file = BufFile.arr [1, 2] ∧
      ([1, 2] : List Nat) ≠ []) ∧
    (resync_offline_data (⟨fun d => d == 1, true, fun _ => true⟩ : Channels Nat)
        ⟨true, false, BufFile.arr [1, 2]⟩).file = BufFile.arr [2] := by
  refine ⟨⟨rfl, by decide⟩, ?_⟩
  rw [resync_partitions_buffer (⟨fun d => d == 1, true, fun _ => true⟩ : Channels Nat)
    ⟨true, false, BufFile.arr [1, 2]⟩ [1, 2] rfl (by decide)]
  decide

/-- C2: when a reading is delivered with buffering allowed (the online branch
of the simulation loop: `send_data` then `send_to_blockchain`, both with
`allow_offline_save=True`), each channel failure independently appends one
copy of the reading to the offline buffer, so the buffer gains one copy per
failed channel — in particular two copies when both attempts fail. -/
theorem each_channel_failure_appends {α : Type} (ch : Channels α) (s : Simulator α) (d : α) :
    readBuffer (send_to_blockchain ch (send_data ch s d true).2 d true).2.file =
      readBuffer s.file ++
        (if ch.publishOk d then [] else [d]) ++
        (if ledgerOkB ch s d then [] else [d]) := by
  cases hp : ch.publishOk d <;> cases hw : s.hasW3 && ch.w3Connected <;>
    cases ht : ch.txOk d <;>
      simp [send_data, send_to_blockchain, save_data_offline, ledgerOkB, hp, hw, ht,
        readBuffer]

/-- C3: during a resync pass every channel send runs with
`allow_offline_save=False` and therefore never touches the buffer: both send
operations leave the simulator state (in particular the file) unchanged, and
the per-reading loop of `resync_offline_data` leaves the state unchanged, so
the only buffer mutation of a resync pass is its final rewrite/delete step. -/
theorem resync_suppresses_buffering {α : Type} (ch : Channels α) (s : Simulator α) (d : α)
    (l acc : List α) :
    (send_data ch s d false).2 = s ∧
    (send_to_blockchain ch s d false).2 = s ∧
    (resyncLoop ch s l acc).1 = s := by
  refine ⟨send_data_snd_false ch s d, send_to_blockchain_snd_false ch s d, ?_⟩
  rw [resyncLoop_spec]

/-- C6: appending a reading to any buffer state (absent, empty-content,
unparsable — all read back as the empty list — or a valid array) and then
draining yields the old drained contents plus the new reading at the end:
the last element is the appended reading and the length grows by one. -/
theorem append_then_drain {α : Type} (f : BufFile α) (d : α) :
    readBuffer (save_data_offline f d) = readBuffer f ++ [d] ∧
    (readBuffer (save_data_offline f d)).getLast? = some d ∧
    (readBuffer (save_data_offline f d)).length = (readBuffer f).length + 1 := by
  refine ⟨rfl, ?_, ?_⟩
  · show (readBuffer f ++ [d]).getLast? = some d
    exact List.getLast?_concat _
  · show (readBuffer f ++ [d]).length = (readBuffer f).length + 1
    simp

/-- C7: with the channel success behavior fixed and no appends in between,
running `resync_offline_data` twice in a row leaves the simulator exactly as
after the first run: the second pass is a no-op on the buffer. -/
theorem resync_idempotent {α : Type} (ch : Channels α) (s : Simulator α) :
    resync_offline_data ch (resync_offline_data ch s) = resync_offline_data ch s := by
  rcases hf : s.file with _ | _ | _ | l
  · rw [resync_trivial_file ch s (Or.inl hf), resync_trivial_file ch s (Or.inl hf)]
  · rw [resync_trivial_file ch s (Or.inr (Or.inl hf)),
      resync_trivial_file ch s (Or.inr (Or.inl hf))]
  · rw [resync_trivial_file ch s (Or.inr (Or.inr (Or.inl hf))),
      resync_trivial_file ch s (Or.inr (Or.inr (Or.inl hf)))]
  · by_cases hne : l = []
    · rw [resync_trivial_file ch s (Or.inr (Or.inr (Or.inr (hne ▸ hf)))),
        resync_trivial_file ch s (Or.inr (Or.inr (Or.inr (hne ▸ hf))))]
    · rw [resync_arr_char ch s l hf hne]
      by_cases hrem : (l.filter (fun d => !(bothOk ch s d))).isEmpty
      · rw [if_pos hrem]
        exact resync_trivial_file ch _ (Or.inl rfl)
      · rw [if_neg hrem]
        set rem := l.filter (fun d => !(bothOk ch s d)) with hrem_def
        have hrem_ne : rem ≠ [] := by
          intro hcon
          exact hrem (by simp [hcon])

        have hsame : ∀ d, bothOk ch { s with file := BufFile.arr rem } d = bothOk ch s d := by
          intro d
          simp [bothOk, ledgerOkB]
        have hfix : rem.filter (fun d => !(bothOk ch { s with file := BufFile.arr rem } d)) =
            rem := by
          refine List.filter_eq_self.mpr ?_
          intro a ha
          have hpa : (!(bothOk ch s a)) = true := by
            rw [hrem_def] at ha
            simpa using List.of_mem_filter ha
          rw [hsame a]
          exact hpa
        rw [resync_arr_char ch { s with file := BufFile.arr rem } rem rfl hrem_ne]
        rw [hfix]
        rw [if_neg (by simp [List.isEmpty_iff, hrem_ne])]

/-- C10: when the buffer file exists but is unparsable, `resync_offline_data`
is a complete no-op (the decode error is caught and the function returns):
no channel is consulted and the file is neither rewritten nor deleted —
whereas `save_data_offline` on the same file replaces it with a fresh
one-element array. -/
theorem resync_invalid_file_noop {α : Type} (ch ch2 : Channels α) (s : Simulator α) (d : α)
    (h : s.file = BufFile.invalid) :
    resync_offline_data ch s = s ∧
    resync_offline_data ch s = resync_offline_data ch2 s ∧
    save_data_offline s.file d = BufFile.arr [d] := by
  refine ⟨resync_trivial_file ch s (Or.inr (Or.inr (Or.inl h))), ?_, ?_⟩
  · rw [resync_trivial_file ch s (Or.inr (Or.inr (Or.inl h))),
      resync_trivial_file ch2 s (Or.inr (Or.inr (Or.inl h)))]
  · rw [h]
    rfl

theorem resync_invalid_file_noop_witness :
    (⟨true, false, BufFile.invalid⟩ : Simulator Nat).file = BufFile.invalid ∧
    resync_offline_data (⟨fun _ => true, true, fun _ => true⟩ : Channels Nat)
        ⟨true, false, BufFile.invalid⟩ = ⟨true, false, BufFile.invalid⟩ ∧
    save_data_offline (BufFile.invalid : BufFile Nat) 7 = BufFile.arr [7] := by
  have h := resync_invalid_file_noop (⟨fun _ => true, true, fun _ => true⟩ : Channels Nat)
    ⟨fun _ => false, false, fun _ => false⟩ ⟨true, false, BufFile.invalid⟩ 7 rfl
  exact ⟨rfl, h.1, h.2.2⟩

/-- C4: in the simulation loop, a tick whose delivery attempt fails on both
channels sets the offline mode; once the mode is Offline it stays Offline for
the whole rest of the run (each tick preserves it); the only thing that sets
it back is the connection check at the start of a (new) `run_simulation`,
which fixes the mode to the negation of the check's outcome. -/
theorem offline_mode_latches {α : Type} (ch ch0 : Channels α) (s s0 : Simulator α) (d : α)
    (ticks : List (Channels α × α)) (connectOk : Bool) :
    (s.offline_mode = true → (simulationTick ch s d).offline_mode = true) ∧
    (ch.publishOk d = false → ledgerOkB ch s d = false →
      (simulationTick ch s d).offline_mode = true) ∧
    (s.offline_mode = true → (runTicks ticks s).offline_mode = true) ∧
    (run_simulation connectOk ch0 [] s0).offline_mode = !connectOk := by
  have htick : ∀ (c : Channels α) (t : Simulator α) (x : α), t.offline_mode = true →
      (simulationTick c t x).offline_mode = true := by
    intro c t x hm
    simp [simulationTick, hm]
  refine ⟨htick ch s d, ?_, ?_, ?_⟩
  · intro hp hl
    by_cases hm : s.offline_mode
    · exact htick ch s d hm
    · have hm' : s.offline_mode = false := by simpa using hm
      have hl' : ledgerOkB ch (send_data ch s d true).2 d = false := by
        simpa [ledgerOkB, send_data_hasW3] using hl
      simp [simulationTick, hm', send_data_fst, send_to_blockchain_fst, hp, hl']
  · intro hm
    induction ticks generalizing s with
    | nil => simpa [runTicks] using hm
    | cons t rest ih =>
      simpa [runTicks] using ih (simulationTick t.1 s t.2) (htick t.1 s t.2 hm)
  · show (if connectOk then
        resync_offline_data ch0 { s0 with offline_mode := !connectOk }
      else { s0 with offline_mode := !connectOk }).offline_mode = !connectOk
    by_cases hc : connectOk
    · rw [if_pos hc, resync_offline_mode_eq]
    · rw [if_neg hc]

theorem offline_mode_latches_witness :
    (simulationTick (⟨fun _ => false, false, fun _ => false⟩ : Channels Nat)
        ⟨false, true, BufFile.absent⟩ 0).offline_mode = true ∧
    (simulationTick (⟨fun _ => false, false, fun _ => false⟩ : Channels Nat)
        ⟨false, false, BufFile.absent⟩ 0).offline_mode = true ∧
    (runTicks [(⟨fun _ => false, false, fun _ => false⟩, 0)]
        (⟨false, true, BufFile.absent⟩ : Simulator Nat)).offline_mode = true ∧
    (run_simulation true (⟨fun _ => false, false, fun _ => false⟩ : Channels Nat) []
        ⟨false, true, BufFile.arr [5]⟩).offline_mode = !true := by
  refine ⟨?_, ?_, ?_, ?_⟩
  · exact (offline_mode_latches (⟨fun _ => false, false, fun _ => false⟩ : Channels Nat)
      ⟨fun _ => false, false, fun _ => false⟩ ⟨false, true, BufFile.absent⟩
      ⟨false, true, BufFile.arr [5]⟩ 0 [] true).1 rfl
  · exact (offline_mode_latches (⟨fun _ => false, false, fun _ => false⟩ : Channels Nat)
      ⟨fun _ => false, false, fun _ => false⟩ ⟨false, false, BufFile.absent⟩
      ⟨false, true, BufFile.arr [5]⟩ 0 [] true).2.1 rfl rfl
  · exact (offline_mode_latches (⟨fun _ => false, false, fun _ => false⟩ : Channels Nat)
      ⟨fun _ => false, false, fun _ => false⟩ ⟨false, true, BufFile.absent⟩
      ⟨false, true, BufFile.arr [5]⟩ 0
      [(⟨fun _ => false, false, fun _ => false⟩, 0)] true).2.2.1 rfl
  · exact (offline_mode_latches (⟨fun _ => false, false, fun _ => false⟩ : Channels Nat)
      ⟨fun _ => false, false, fun _ => false⟩ ⟨false, true, BufFile.absent⟩
      ⟨false, true, BufFile.arr [5]⟩ 0 [] true).2.2.2

/-- C5: appending via `save_data_offline` always writes a JSON array, and a
resync pass on a well-formed buffer (absent file or JSON-array file) leaves
the file either absent or a JSON array: every buffer operation preserves the
invariant that the file is absent or holds valid JSON array syntax. -/
theorem buffer_ops_keep_json_invariant {α : Type} (ch : Channels α) (f : BufFile α) (d : α)
    (s : Simulator α) (hs : isJsonArrayOrAbsent s.file = true) :
    isJsonArrayOrAbsent (save_data_offline f d) = true ∧
    isJsonArrayOrAbsent (resync_offline_data ch s).file = true := by
  refine ⟨rfl, ?_⟩
  rcases hf : s.file with _ | _ | _ | l
  · rw [resync_trivial_file ch s (Or.inl hf), hf]
    rfl
  · rw [hf] at hs
    simp [isJsonArrayOrAbsent] at hs
  · rw [hf] at hs
    simp [isJsonArrayOrAbsent] at hs
  · by_cases hne : l = []
    · rw [resync_trivial_file ch s (Or.inr (Or.inr (Or.inr (hne ▸ hf)))), hf]
      rfl
    · rw [resync_arr_char ch s l hf hne]
      by_cases hrem : (l.filter (fun x => !(bothOk ch s x))).isEmpty
      · simp [hrem]
        rfl
      · simp [hrem]
        rfl

theorem buffer_ops_keep_json_invariant_witness :
    isJsonArrayOrAbsent (⟨true, false, BufFile.arr [4]⟩ : Simulator Nat).file = true ∧
    isJsonArrayOrAbsent (save_data_offline (BufFile.absent : BufFile Nat) 3) = true ∧
    isJsonArrayOrAbsent (resync_offline_data
      (⟨fun _ => false, true, fun _ => true⟩ : Channels Nat)
      ⟨true, false, BufFile.arr [4]⟩).file = true := by
  have h := buffer_ops_keep_json_invariant
    (⟨fun _ => false, true, fun _ => true⟩ : Channels Nat)
    (BufFile.absent : BufFile Nat) 3 ⟨true, false, BufFile.arr [4]⟩ rfl
  exact ⟨rfl, h.1, h.2⟩

theorem round2_bounds (x : ℚ) (m n : ℤ) (h1 : (m : ℚ) ≤ x * 100) (h2 : x * 100 ≤ (n : ℚ)) :
    (m : ℚ) / 100 ≤ round2 x ∧ round2 x ≤ (n : ℚ) / 100 := by
  have hlo : m ≤ round (x * 100) := by
    rw [round_eq]
    exact Int.le_floor.mpr (by linarith)
  have hhi : round (x * 100) ≤ n := by
    rw [round_eq]
    have : ⌊x * 100 + 1 / 2⌋ < n + 1 := Int.floor_lt.mpr (by push_cast; linarith)
    omega
  have hlo' : (m : ℚ) ≤ (round (x * 100) : ℚ) := by exact_mod_cast hlo
  have hhi' : ((round (x * 100) : ℤ) : ℚ) ≤ (n : ℚ) := by exact_mod_cast hhi
  unfold round2
  constructor <;> linarith

/-- C8: the generated temperature — `round(22.5 + u, 2)` for a uniform draw
`u` from `[-5, 8]` — always lies in `[17.5, 30.5]`, and the generated
humidity — a normal draw clamped to `[20, 90]` and rounded to two decimals —
always lies in `[20, 90]`. -/
theorem generated_reading_ranges (u n : ℚ) (hu1 : -5 ≤ u) (hu2 : u ≤ 8) :
    (17.5 ≤ generate_temperature u ∧ generate_temperature u ≤ 30.5) ∧
    (20 ≤ generate_humidity n ∧ generate_humidity n ≤ 90) := by
  constructor
  · have h := round2_bounds (22.5 + u) 1750 3050 (by push_cast; linarith)
      (by push_cast; linarith)
    unfold generate_temperature
    push_cast at h
    constructor <;> linarith [h.1, h.2]
  · have hx1 : (20 : ℚ) ≤ max 20 (min 90 n) := le_max_left _ _
    have hx2 : max 20 (min 90 n) ≤ 90 := max_le (by norm_num) (min_le_left _ _)
    have h := round2_bounds (max 20 (min 90 n)) 2000 9000 (by push_cast; linarith)
      (by push_cast; linarith)
    unfold generate_humidity
    push_cast at h
    constructor <;> linarith [h.1, h.2]

theorem generated_reading_ranges_witness :
    ((-5 : ℚ) ≤ 0 ∧ (0 : ℚ) ≤ 8) ∧
    (17.5 ≤ generate_temperature 0 ∧ generate_temperature 0 ≤ 30.5) ∧
    (20 ≤ generate_humidity 100 ∧ generate_humidity 100 ≤ 90) := by
  have h := generated_reading_ranges 0 100 (by norm_num) (by norm_num)
  exact ⟨⟨by norm_num, by norm_num⟩, h.1, h.2⟩

/-- C9: with no ledger endpoint configured (`self.w3 = None`),
`send_to_blockchain` returns `False` without consulting the transaction
channel at all (its result is the same for arbitrary channel oracles) and,
when buffering is allowed, appends the reading to the offline buffer; hence
an online tick whose MQTT publish succeeds still appends its reading to the
buffer once while the mode stays Online. -/
theorem no_ledger_endpoint_behavior {α : Type} (ch ch2 : Channels α) (s : Simulator α)
    (d : α) (b : Bool) (hw : s.hasW3 = false) :
    (send_to_blockchain ch s d b).1 = false ∧
    send_to_blockchain ch s d b = send_to_blockchain ch2 s d b ∧
    (send_to_blockchain ch s d true).2.file = save_data_offline s.file d ∧
    (s.offline_mode = false → ch.publishOk d = true →
      simulationTick ch s d = { s with file := save_data_offline s.file d }) := by
  refine ⟨?_, ?_, ?_, ?_⟩
  · simp [send_to_blockchain, hw]
  · simp [send_to_blockchain, hw]
  · simp [send_to_blockchain, hw]
  · intro hm hp
    have hw1 : (send_data ch s d true).2.hasW3 = false := by
      rw [send_data_hasW3]
      exact hw
    have hs1 : (send_data ch s d true).2 = s := by simp [send_data, hp]
    simp [simulationTick, hm, hs1, send_to_blockchain, hw, send_data_fst, hp]

theorem no_ledger_endpoint_behavior_witness :
    (⟨false, false, BufFile.absent⟩ : Simulator Nat).hasW3 = false ∧
    (send_to_blockchain (⟨fun _ => true, true, fun _ => true⟩ : Channels Nat)
        ⟨false, false, BufFile.absent⟩ 9 true).1 = false ∧
    send_to_blockchain (⟨fun _ => true, true, fun _ => true⟩ : Channels Nat)
        ⟨false, false, BufFile.absent⟩ 9 true =
      send_to_blockchain ⟨fun _ => false, false, fun _ => false⟩
        ⟨false, false, BufFile.absent⟩ 9 true ∧
    simulationTick (⟨fun _ => true, true, fun _ => true⟩ : Channels Nat)
        ⟨false, false, BufFile.absent⟩ 9 =
      ⟨false, false, BufFile.arr [9]⟩ := by
  have h := no_ledger_endpoint_behavior (⟨fun _ => true, true, fun _ => true⟩ : Channels Nat)
    ⟨fun _ => false, false, fun _ => false⟩ ⟨false, false, BufFile.absent⟩ 9 true rfl
  refine ⟨rfl, h.1, h.2.1, ?_⟩
  rw [h.2.2.2 rfl rfl]
  rfl

end Beia
